import Mathlib

/-!
Verification of the plot-instance composition and overlay engine in
`rubin_sim/maf/plots/skyproj_plotters.py`.

The Python source is shallowly embedded: pure numeric code becomes functions
over `ℚ`, the module-level instance registry becomes explicit state passing,
Python exceptions become `Except PyErr`, and the calls into the external
collaborators (astropy coordinate transforms, matplotlib figures, skyproj
drawing primitives) are modelled parametrically or as opaque drawing events,
matching the boundary the specification declares for the core.
-/

/-- Python exception kinds reachable from the embedded code paths. -/
inductive PyErr
  | typeError
  | valueError
  | assertionError
  | notImplementedError
  | attributeError
deriving DecidableEq

/-- First adjustment of the de-normalization loop body (line 63 of the
source): subtract 360 when the raw value is more than 180 above the previous
adjusted value. -/
def denormAdjust1 (prev r : ℚ) : ℚ := if r - prev > 180 then r - 360 else r

/-- Second adjustment (line 65), applied to the possibly already shifted
value: add 360 when it is more than 180 below the previous adjusted value. -/
def denormAdjust2 (prev r1 : ℚ) : ℚ := if r1 - prev < -180 then r1 + 360 else r1

/-- One full iteration of the de-normalization loop (lines 62-67). -/
def denormStep (prev r : ℚ) : ℚ := denormAdjust2 prev (denormAdjust1 prev r)

/-- Tail of the de-normalization loop: walk the list, threading the previous
adjusted value through each step. -/
def denormGo : ℚ → List ℚ → List ℚ
  | _, [] => []
  | prev, r :: rs => denormStep prev r :: denormGo (denormStep prev r) rs

/-- De-normalization pass over the right-ascension list (lines 58-67):
`previous_ra` starts at the first element and the loop runs from index 1. -/
def denormalizeRas : List ℚ → List ℚ
  | [] => []
  | r0 :: rest => r0 :: denormGo r0 rest

/-- Embedding of `np.arange(start, stop, step)` on exact rationals: the
ceiling of `(stop - start) / step` evenly spaced values starting at
`start`. -/
def arange (start stop step : ℚ) : List ℚ :=
  (List.range (⌈(stop - start) / step⌉).toNat).map fun i => start + (i : ℚ) * step

/-- Bearing samples of `compute_circle_points` (line 51):
`np.arange(start_bear, end_bear + step, step)`. -/
def bearingAngles (startBear endBear step : ℚ) : List ℚ :=
  arange startBear (endBear + step) step

/-- Raw circle points (lines 52-56). The spherical offset computation is the
external astropy collaborator; it is abstracted as `offset`, mapping a
bearing to the (ra, decl) pair of `center.directional_offset_by(bearing,
radius)`, which is 360-degree periodic in the bearing. -/
def circleRawPoints (offset : ℚ → ℚ × ℚ) (startBear endBear step : ℚ) :
    List (ℚ × ℚ) :=
  (bearingAngles startBear endBear step).map offset

/-- Right-ascension column of `compute_circle_points`: the collaborator RA
values at the sampled bearings, then the de-normalization pass. `offsetRa`
abstracts `circle_coords.ra.deg`, whose values always lie in `[0, 360)`. -/
def computeCircleRas (offsetRa : ℚ → ℚ) (startBear endBear step : ℚ) : List ℚ :=
  denormalizeRas ((bearingAngles startBear endBear step).map offsetRa)

/-- Adjacent right-ascension values differ by at most 180 degrees. -/
def raJumpOk (a b : ℚ) : Prop := |b - a| ≤ 180

instance : DecidableRel raJumpOk := fun a b =>
  inferInstanceAs (Decidable (|b - a| ≤ 180))

/-- Bound on the de-normalization walk: each raw value is within 540 degrees
of the previous adjusted value. -/
def preDiffOk : ℚ → List ℚ → Bool
  | _, [] => true
  | prev, r :: rs => (decide (|r - prev| ≤ 540)) && preDiffOk (denormStep prev r) rs

/-- Version of `preDiffOk` anchored at the head of the list, matching how the
loop initializes `previous_ra`. -/
def preDiffOkList : List ℚ → Bool
  | [] => true
  | r :: rs => preDiffOk r rs

/-- Collaborator RA function realizing the raw values 0, 190, 20, 210 at the
bearings 0, 170, 340, 510. A circle centered very close to the celestial
pole has offset RA approximately `center_ra + 180 - bearing` modulo 360, so
sampling it with step 170 produces exactly this sequence. -/
def badOffsetRa : ℚ → ℚ := fun b =>
  if b = 170 then 190 else if b = 340 then 20 else if b = 510 then 210 else 0

/-- Python class object: an identity plus the identities of its proper
ancestors, enough to evaluate `isinstance`. -/
structure PyClass where
  id : ℕ
  supers : List ℕ
deriving DecidableEq

/-- Embedding of `isinstance(x, t)` for an object `x` of class `c`: true
when `t` is the class itself or one of its ancestors. -/
def isInst (c t : PyClass) : Bool := t.id == c.id || c.supers.contains t.id

/-- Projection-axis instance: an identity plus the class it was built from. -/
structure Axis where
  axId : ℕ
  cls : PyClass
deriving DecidableEq

/-- Normalized subplot key, the tuple form. -/
abbrev SubKey := List ℤ

/-- The module-level `SkyprojPlotter.skyproj_instances` dictionary (line 86),
keyed by figure identity, plus a fresh-identity counter for newly constructed
axis objects. -/
structure RegState where
  instances : List (ℕ × List (SubKey × Axis))
  nextId : ℕ
deriving DecidableEq

/-- Association-list lookup, modelling a Python dict lookup. -/
def lookupA {κ β : Type} [DecidableEq κ] : List (κ × β) → κ → Option β
  | [], _ => none
  | (k1, v) :: m, k => if k = k1 then some v else lookupA m k

/-- Association-list update, modelling Python dict item assignment. -/
def insertA {κ β : Type} [DecidableEq κ] : List (κ × β) → κ → β → List (κ × β)
  | [], k, v => [(k, v)]
  | (k1, v1) :: m, k, v =>
    if k = k1 then (k, v) :: m else (k1, v1) :: insertA m k v

/-- Fueled decimal-digit extraction, most significant digit first. -/
def decDigitsCore : ℕ → ℕ → List ℕ
  | 0, _ => []
  | fuel + 1, n => if n < 10 then [n] else decDigitsCore fuel (n / 10) ++ [n % 10]

/-- Decimal digits of a natural number, as produced by `map(int, str(n))`
for a non-negative Python int. -/
def decDigits (n : ℕ) : List ℕ := decDigitsCore (n + 1) n

/-- Length of `str(n)` for a Python int: a minus sign plus the digits when
negative, otherwise just the digits. -/
def strLen (n : ℤ) : ℕ :=
  if n < 0 then 1 + (decDigits n.natAbs).length else (decDigits n.toNat).length

/-- Subplot specifier as supplied in the plot dict: a Python int or a tuple
of ints. -/
inductive SubplotIn
  | int (n : ℤ)
  | tup (l : List ℤ)

/-- Normalization of the subplot specification (lines 140-142): an integer
whose string form has exactly 3 characters becomes the tuple of its decimal
digits (for a negative integer of string length 3 the character `-` makes
`int` raise ValueError); any other integer reaches `tuple(subplot_in)`,
which raises TypeError on a non-iterable int; a tuple is taken as is. -/
def normalizeSubplot : SubplotIn → Except PyErr SubKey
  | .int n =>
    if strLen n = 3 then
      if 0 ≤ n then .ok ((decDigits n.toNat).map Int.ofNat)
      else .error .valueError
    else .error .typeError
  | .tup l => .ok l

/-- Embedding of `SkyprojPlotter._prepare_skyproj` (lines 130-161),
restricted to its effect on the module-level instance registry. The figure
is a canvas identity; matplotlib itself is external. For a cached subplot
the code asserts `isinstance(existing_instance, requested_class)` and reuses
the instance; otherwise it constructs a fresh axis of the requested class
and stores it under the normalized key. -/
def prepareSkyproj (s : RegState) (canvas : ℕ) (sp : SubplotIn) (ty : PyClass) :
    Except PyErr Axis × RegState :=
  match normalizeSubplot sp with
  | .error e => (.error e, s)
  | .ok key =>
    let sub := (lookupA s.instances canvas).getD []
    let inst1 :=
      if (lookupA s.instances canvas).isSome then s.instances
      else insertA s.instances canvas []
    match lookupA sub key with
    | some a =>
      if isInst a.cls ty then (.ok a, ⟨inst1, s.nextId⟩)
      else (.error .assertionError, ⟨inst1, s.nextId⟩)
    | none =>
      (.ok ⟨s.nextId, ty⟩,
        ⟨insertA inst1 canvas (insertA sub key ⟨s.nextId, ty⟩), s.nextId + 1⟩)

/-- Projection class standing for the skyproj base class. -/
def baseCls : PyClass := ⟨0, []⟩

/-- Projection class standing for a concrete subclass of the base class. -/
def subCls : PyClass := ⟨1, [0]⟩

/-- Cached axis built from the subclass. -/
def axB : Axis := ⟨7, subCls⟩

/-- Registry holding `axB` for canvas 0 under subplot key (1, 1, 1). -/
def sB : RegState := ⟨[(0, [([1, 1, 1], axB)])], 8⟩

/-- Python values stored in the plot dict, as far as the claims need them. -/
inductive PyValue
  | none
  | str (s : String)
  | num (q : ℚ)
  | bool (b : Bool)
  | strList (l : List String)
  | obs (o : ℕ)
deriving DecidableEq

/-- The plot dict as an association list of the explicitly set keys. -/
abbrev PlotDict := List (String × PyValue)

/-- Lookup in the `defaultdict(return_none)` built by
`_initialize_plot_dict` (lines 121-126): any key not explicitly set
resolves to Python `None`. -/
def pdGet (pd : PlotDict) (k : String) : PyValue := (lookupA pd k).getD .none

/-- Python `k in d` membership test on the plot dict. -/
def pdHas (pd : PlotDict) (k : String) : Bool := (lookupA pd k).isSome

/-- Python `dict.update`: apply every key of `o` to `m`, in order. -/
def dictUpdate (m o : PlotDict) : PlotDict :=
  o.foldl (fun acc kv => insertA acc kv.1 kv.2) m

/-- Merge of a chain of default layers, earlier layers first, starting from
the empty defaultdict. -/
def resolveChain (layers : List PlotDict) : PlotDict := layers.foldl dictUpdate []

/-- Embedding of `_initialize_plot_dict` (lines 121-128): start from the
empty defaultdict, apply the instance defaults, then the user overrides. -/
def buildPlotDict (defaults user : PlotDict) : PlotDict :=
  dictUpdate (dictUpdate [] defaults) user

/-- ASCII lowercase conversion of one character, the behavior of Python
`str.lower` on the character set the configuration values use. -/
def lowerChar : Char → Char
  | 'A' => 'a' | 'B' => 'b' | 'C' => 'c' | 'D' => 'd' | 'E' => 'e' | 'F' => 'f'
  | 'G' => 'g' | 'H' => 'h' | 'I' => 'i' | 'J' => 'j' | 'K' => 'k' | 'L' => 'l'
  | 'M' => 'm' | 'N' => 'n' | 'O' => 'o' | 'P' => 'p' | 'Q' => 'q' | 'R' => 'r'
  | 'S' => 's' | 'T' => 't' | 'U' => 'u' | 'V' => 'v' | 'W' => 'w' | 'X' => 'x'
  | 'Y' => 'y' | 'Z' => 'z' | c => c

/-- Python `str.lower` on ASCII strings. -/
def pyLower (s : String) : String := ⟨s.data.map lowerChar⟩

/-- Discriminator for successful embedded computations. -/
def isOkE {α : Type} : Except PyErr α → Bool
  | .ok _ => true
  | .error _ => false

/-- Class-level `default_colorbar_kwargs` (lines 90-96). -/
def defaultColorbarKwargs : List (String × PyValue) :=
  [("location", .str "bottom"), ("shrink", .num (3 / 4)), ("aspect", .num 25),
   ("pad", .num (1 / 10)), ("orientation", .str "horizontal")]

/-- Keyword-argument resolution of `HpxmapPlotter.draw_colorbar`
(lines 331-356), up to the call into the skyproj collaborator. The Python
`match` on the lowercased orientation is an equality chain on string
literals; an unrecognized value raises NotImplementedError, and calling
`.lower()` on a non-string value raises AttributeError. -/
def drawColorbarKwargs (pd : PlotDict) : Except PyErr (List (String × PyValue)) :=
  let kw1 :=
    if pdHas pd "extend" then
      insertA defaultColorbarKwargs "extendrect"
        (.bool (decide (pdGet pd "extend" = .str "neither")))
    else defaultColorbarKwargs
  let kw2 :=
    if pdHas pd "cbar_format" then insertA kw1 "format" (pdGet pd "cbar_format")
    else kw1
  if pdHas pd "cbar_orientation" then
    match pdGet pd "cbar_orientation" with
    | .str s =>
      let kw3 := insertA kw2 "orientation" (.str s)
      if pyLower s = "vertical" then
        .ok (insertA (insertA kw3 "shrink" (.num (1 / 2))) "location" (.str "right"))
      else if pyLower s = "horizontal" then
        .ok (insertA kw3 "location" (.str "bottom"))
      else .error .notImplementedError
    | _ => .error .attributeError
  else .ok kw2

/-- Concrete plot dict with an upper-case orientation value. -/
def pdVert : PlotDict := [("cbar_orientation", .str "VERTICAL")]

/-- Observable drawing effects of the decoration pipeline. Geometry and
styling are delegated to the external collaborators and are abstracted into
the tag carried by each event. -/
inductive Event
  | circle (what : String)
  | scatterBody (body : String)
  | warnNoObservatory (what : String)
deriving DecidableEq

/-- Embedding of `SkyprojPlotter.draw_body` (lines 233-261): with the
`model_observatory` entry absent or None it warns and draws nothing;
otherwise it marks the requested body via the collaborator `scatter`. -/
def drawBody (pd : PlotDict) (body : String) : List Event :=
  if pdGet pd "model_observatory" = .none then [.warnNoObservatory body]
  else [.scatterBody body]

/-- Embedding of `SkyprojPlotter.draw_zd` (lines 205-231): same missing
observatory guard, otherwise a circle at the current zenith. -/
def drawZd (pd : PlotDict) : List Event :=
  if pdGet pd "model_observatory" = .none then [.warnNoObservatory "zd"]
  else [.circle "zd"]

/-- Embedding of `draw_ecliptic` (lines 181-191): a circle around the
collaborator-computed ecliptic pole. -/
def drawEcliptic : List Event := [Event.circle "ecliptic"]

/-- Embedding of `draw_galactic_plane` (lines 193-203). -/
def drawGalacticPlane : List Event := [Event.circle "galactic_plane"]

/-- Embedding of `SkyprojPlotter.decorate` (lines 263-288): a fixed
evaluation order over the configured decoration list. Membership tests on a
non-list `decorations` value raise TypeError in Python. -/
def decorate (pd : PlotDict) : Except PyErr (List Event) :=
  match pdGet pd "decorations" with
  | .strList dec =>
    .ok ((if "ecliptic" ∈ dec then drawEcliptic else []) ++
      (if "galactic_plane" ∈ dec then drawGalacticPlane else []) ++
      (if "sun" ∈ dec then drawBody pd "sun" else []) ++
      (if "moon" ∈ dec then drawBody pd "moon" else []) ++
      (if "horizon" ∈ dec then drawZd pd else []))
  | _ => .error .typeError

/-- Heap of Python list objects reachable from the plotter classes. -/
structure Heap where
  lists : List (List String)
deriving DecidableEq

/-- Dereference a list object. -/
def heapGet (h : Heap) (r : ℕ) : List String := h.lists.getD r []

/-- Overwrite a list object in place. -/
def heapSet (h : Heap) (r : ℕ) (v : List String) : Heap := ⟨h.lists.set r v⟩

/-- Python `list.append` on a shared list object. -/
def heapAppend (h : Heap) (r : ℕ) (x : String) : Heap :=
  heapSet h r (heapGet h r ++ [x])

/-- Reference held by the class attribute `SkyprojPlotter.default_decorations`
(line 88), created once at class definition time and therefore shared. -/
def classDecorRef : ℕ := 0

/-- Heap right after class definition: the single shared default-decorations
list object. -/
def initHeap : Heap := ⟨[["ecliptic", "galactic_plane"]]⟩

/-- Plotter instance state relevant to the claims: its `plot_type` and the
reference stored under the `decorations` key of its `default_plot_dict`. -/
structure PlotterObj where
  plotType : String
  decorationsRef : ℕ
deriving DecidableEq

/-- Embedding of `SkyprojPlotter.__init__` (lines 104-119): the
`decorations` entry of `default_plot_dict` receives the class-level list
object itself, not a copy. -/
def constructSkyprojPlotter (h : Heap) : PlotterObj × Heap :=
  (⟨"Skyproj", classDecorRef⟩, h)

/-- Embedding of `HpxmapPlotter.__init__` (lines 326-329): the base
constructor, then an append through the stored reference, mutating the
shared class-level list object. -/
def constructHpxmapPlotter (h : Heap) : PlotterObj × Heap :=
  let ph := constructSkyprojPlotter h
  (ph.1, heapAppend ph.2 ph.1.decorationsRef "colorbar")

/-- Embedding of `VisitPerimeterPlotter.__init__` (lines 406-409). -/
def constructVisitPerimeterPlotter (h : Heap) : PlotterObj × Heap :=
  let ph := constructSkyprojPlotter h
  (⟨"SkyprojVisitPerimeter", ph.1.decorationsRef⟩, ph.2)

/-- Construct `k` HpxmapPlotter instances in sequence. -/
def constructNHpx : ℕ → Heap → Heap
  | 0, h => h
  | k + 1, h => constructNHpx k (constructHpxmapPlotter h).2

/-- One iteration of the unwrapping loop moves at most one full turn and
lands within a half turn of the previous adjusted value, provided the raw
value was within one-and-a-half turns of it. -/
theorem denormStep_close (prev r : ℚ) (h : |r - prev| ≤ 540) :
    |denormStep prev r - prev| ≤ 180 := by
  rw [abs_le] at h ⊢
  obtain ⟨hl, hr⟩ := h
  unfold denormStep denormAdjust2 denormAdjust1
  split_ifs <;> constructor <;> linarith

/-- The loop tail yields a chain of small jumps when every raw value stays
within 540 degrees of the previous adjusted value. -/
theorem denormGo_chain :
    ∀ (rs : List ℚ) (prev : ℚ), preDiffOk prev rs = true →
      List.Chain raJumpOk prev (denormGo prev rs) := by
  intro rs
  induction rs with
  | nil =>
    intro prev _
    simp only [denormGo]
    exact List.Chain.nil
  | cons r rs ih =>
    intro prev h
    simp only [preDiffOk, Bool.and_eq_true, decide_eq_true_eq] at h
    simp only [denormGo]
    exact List.Chain.cons (denormStep_close prev r h.1) (ih (denormStep prev r) h.2)

/-- The full de-normalization pass yields a chain of small jumps under the
per-step 540-degree bound. -/
theorem denorm_chain (raws : List ℚ) (h : preDiffOkList raws = true) :
    List.Chain' raJumpOk (denormalizeRas raws) := by
  cases raws with
  | nil => simp [denormalizeRas]
  | cons r0 rest =>
    simp only [denormalizeRas]
    simp only [preDiffOkList] at h
    exact denormGo_chain rest r0 h

/-- Evaluation rule for the `np.arange` embedding once the element count is
known. -/
theorem arange_eq (start stop step : ℚ) (n : ℕ)
    (h : ⌈(stop - start) / step⌉ = (n : ℤ)) :
    arange start stop step = (List.range n).map (fun i => start + (i : ℚ) * step) := by
  unfold arange
  rw [h]
  norm_num

/-- Bearing samples for a full circle at 90-degree spacing. -/
theorem bearingAngles_full_90 : bearingAngles 0 360 90 = [0, 90, 180, 270, 360] := by
  rw [bearingAngles, arange_eq 0 (360 + 90) 90 5 (by norm_num [Int.ceil_eq_iff])]
  norm_num [List.range_succ]

/-- Bearing samples for the range 0..100 at 90-degree spacing. -/
theorem bearingAngles_100_90 : bearingAngles 0 100 90 = [0, 90, 180] := by
  rw [bearingAngles, arange_eq 0 (100 + 90) 90 3 (by norm_num [Int.ceil_eq_iff])]
  norm_num [List.range_succ]

/-- Bearing samples for a full circle at 170-degree spacing. -/
theorem bearingAngles_full_170 : bearingAngles 0 360 170 = [0, 170, 340, 510] := by
  rw [bearingAngles, arange_eq 0 (360 + 170) 170 4 (by norm_num [Int.ceil_eq_iff])]
  norm_num [List.range_succ]

/-- C1 (amended): for every collaborator right-ascension function and every
bearing range, the right-ascension values returned by the circle
computation, taken in bearing order, have no two consecutive values
differing by more than 180 degrees in magnitude after the single-pass
plus-or-minus-360-degree unwrapping adjustment, provided that at each step
of the walk the raw value differs from the previous already-adjusted value
by at most 540 degrees in magnitude. -/
theorem compute_circle_unwrap_bounded (offsetRa : ℚ → ℚ)
    (startBear endBear step : ℚ)
    (h : preDiffOkList ((bearingAngles startBear endBear step).map offsetRa) = true) :
    List.Chain' raJumpOk (computeCircleRas offsetRa startBear endBear step) :=
  denorm_chain _ h

/-- Witness for the amended C1 at a constant collaborator function on the
full circle with 90-degree spacing. -/
theorem compute_circle_unwrap_bounded_w :
    List.Chain' raJumpOk (computeCircleRas (fun _ => 100) 0 360 90) := by
  apply compute_circle_unwrap_bounded (fun _ => 100) 0 360 90
  rw [bearingAngles_full_90]
  norm_num [preDiffOkList, preDiffOk, denormStep, denormAdjust1, denormAdjust2]

/-- C1 counterexample: the unconditional claim is false. With raw
right-ascension values 0, 190, 20, 210 (all in `[0, 360)`, produced at step
170 by a circle centered near the celestial pole) the single-pass
adjustment leaves the adjusted sequence 0, -170, -340, -150, whose last
jump is 190 degrees. -/
theorem compute_circle_unwrap_cex :
    ¬ (∀ (offsetRa : ℚ → ℚ) (startBear endBear step : ℚ),
        (∀ b, 0 ≤ offsetRa b ∧ offsetRa b < 360) →
        List.Chain' raJumpOk (computeCircleRas offsetRa startBear endBear step)) := by
  intro hclaim
  have hrange : ∀ b, 0 ≤ badOffsetRa b ∧ badOffsetRa b < 360 := by
    intro b
    unfold badOffsetRa
    split_ifs <;> norm_num
  have h2 := hclaim badOffsetRa 0 360 170 hrange
  have heval : computeCircleRas badOffsetRa 0 360 170 = [0, -170, -340, -150] := by
    rw [computeCircleRas, bearingAngles_full_170]
    norm_num [badOffsetRa, denormalizeRas, denormGo, denormStep, denormAdjust1,
      denormAdjust2]
  rw [heval] at h2
  rw [List.chain'_cons, List.chain'_cons, List.chain'_cons] at h2
  have h3 := h2.2.2.1
  norm_num [raJumpOk] at h3

/-- C8 (amended): the bearings sampled are `start + k * step` for `k` below
the arange count `⌈(end + step - start) / step⌉`; whenever `step > 0` and
`end - start` is a multiple of `step` this is exactly the bearings from
`start` to `end` inclusive; in particular the full circle at 90-degree
spacing samples exactly the 5 bearings 0, 90, 180, 270, 360, and since the
spherical-offset collaborator is 360-degree periodic in bearing, the points
at bearings 0 and 360 are the same sky location. -/
theorem compute_circle_bearing_sampling :
    bearingAngles 0 360 90 = [0, 90, 180, 270, 360] ∧
    (∀ (startBear step : ℚ) (n : ℕ), 0 < step →
      bearingAngles startBear (startBear + n * step) step =
        (List.range (n + 1)).map (fun i => startBear + (i : ℚ) * step)) ∧
    (∀ offset : ℚ → ℚ × ℚ, (∀ b, offset (b + 360) = offset b) →
      (circleRawPoints offset 0 360 90).length = 5 ∧
      (circleRawPoints offset 0 360 90).head? = some (offset 0) ∧
      (circleRawPoints offset 0 360 90).getLast? = some (offset 0)) := by
  refine ⟨bearingAngles_full_90, ?_, ?_⟩
  · intro startBear step n hstep
    have hne : step ≠ 0 := ne_of_gt hstep
    have hdiv : ((startBear + n * step + step) - startBear) / step = ((n + 1 : ℕ) : ℚ) := by
      field_simp
      ring
    rw [bearingAngles, arange_eq startBear (startBear + n * step + step) step (n + 1)
      (by rw [hdiv, Int.ceil_natCast])]
  · intro offset hper
    have hpts : circleRawPoints offset 0 360 90 =
        [offset 0, offset 90, offset 180, offset 270, offset 360] := by
      rw [circleRawPoints, bearingAngles_full_90]
      rfl
    have h0 : offset 360 = offset 0 := by
      have h1 := hper 0
      rw [zero_add] at h1
      exact h1
    refine ⟨by rw [hpts]; rfl, by rw [hpts]; rfl, ?_⟩
    have h2 : (circleRawPoints offset 0 360 90).getLast? = some (offset 360) := by
      rw [hpts]
      rfl
    rw [h2, h0]

/-- Witness for the amended C8: sampling from 0 to 360 by 90 with a
divisible range, and a constant (hence periodic) collaborator. -/
theorem compute_circle_bearing_sampling_w :
    bearingAngles 0 (0 + (4 : ℕ) * 90) 90 =
      (List.range (4 + 1)).map (fun i => 0 + (i : ℚ) * 90) ∧
    (circleRawPoints (fun _ => ((0 : ℚ), (0 : ℚ))) 0 360 90).length = 5 :=
  ⟨compute_circle_bearing_sampling.2.1 0 90 4 (by norm_num),
   (compute_circle_bearing_sampling.2.2 (fun _ => (0, 0)) (fun _ => rfl)).1⟩

/-- C8 counterexample: the sampled bearings are not always between
start and end inclusive. For start 0, end 100, step 90 the code samples
bearing 180, which exceeds the end bearing. -/
theorem compute_circle_bearing_cex :
    ¬ (∀ (startBear endBear step : ℚ), 0 < step → startBear ≤ endBear →
        ∀ b ∈ bearingAngles startBear endBear step, startBear ≤ b ∧ b ≤ endBear) := by
  intro h
  have hmem : (180 : ℚ) ∈ bearingAngles 0 100 90 := by
    rw [bearingAngles_100_90]
    exact List.mem_cons_of_mem _ (List.mem_cons_of_mem _ (List.mem_cons_self _ _))
  have h2 := (h 0 100 90 (by norm_num) (by norm_num) 180 hmem).2
  norm_num at h2

/-- Lookup after an update: the updated key maps to the new value, every
other key is unchanged. -/
theorem lookupA_insertA {κ β : Type} [DecidableEq κ] (m : List (κ × β))
    (k k2 : κ) (v : β) :
    lookupA (insertA m k v) k2 = if k2 = k then some v else lookupA m k2 := by
  induction m with
  | nil => simp [insertA, lookupA]
  | cons kv m ih =>
    obtain ⟨k1, v1⟩ := kv
    by_cases h1 : k = k1
    · subst h1
      by_cases h2 : k2 = k <;> simp [insertA, lookupA, h2]
    · by_cases h2 : k2 = k1
      · have h3 : ¬ (k2 = k) := fun h => h1 (h.symm.trans h2)
        have h4 : ¬ (k1 = k) := fun h => h1 h.symm
        simp [insertA, lookupA, h1, h2, h3, h4]
      · simp [insertA, lookupA, h1, h2, ih]

/-- A cached subplot entry implies its canvas is present in the registry. -/
theorem cached_isSome {M : List (ℕ × List (SubKey × Axis))} {c : ℕ}
    {key : SubKey} {a : Axis}
    (h : lookupA ((lookupA M c).getD []) key = some a) :
    (lookupA M c).isSome = true := by
  cases hm : lookupA M c with
  | none =>
    rw [hm] at h
    simp [lookupA] at h
  | some sub => rfl

/-- Every object is an instance of its own class. -/
theorem isInst_self (t : PyClass) : isInst t t = true := by simp [isInst]

/-- Cached-hit behavior of the registry when the isinstance assertion
passes: the existing axis is returned and the registry is unchanged. -/
theorem prepareSkyproj_cached (s : RegState) (c : ℕ) (sp : SubplotIn)
    (ty : PyClass) (key : SubKey) (a : Axis)
    (hsp : normalizeSubplot sp = .ok key)
    (hsub : lookupA ((lookupA s.instances c).getD []) key = some a)
    (hinst : isInst a.cls ty = true) :
    prepareSkyproj s c sp ty = (.ok a, s) := by
  have hsome := cached_isSome hsub
  unfold prepareSkyproj
  rw [hsp]
  simp [hsub, hinst, hsome]

/-- Miss behavior of the registry: a fresh axis of the requested class is
created, stored under the normalized key, and returned. -/
theorem prepareSkyproj_new (s : RegState) (c : ℕ) (sp : SubplotIn)
    (ty : PyClass) (key : SubKey)
    (hsp : normalizeSubplot sp = .ok key)
    (hsub : lookupA ((lookupA s.instances c).getD []) key = none) :
    prepareSkyproj s c sp ty =
      (.ok ⟨s.nextId, ty⟩,
        ⟨insertA
            (if (lookupA s.instances c).isSome then s.instances
             else insertA s.instances c []) c
            (insertA ((lookupA s.instances c).getD []) key ⟨s.nextId, ty⟩),
          s.nextId + 1⟩) := by
  unfold prepareSkyproj
  rw [hsp]
  simp [hsub]

/-- C2: axis acquisition is idempotent. The integer specifier 111 and the
tuple specifier (1, 1, 1) normalize identically, and for any registry
state, canvas, and equivalent specifiers, a second acquisition with the
same projection type returns the very axis instance produced by the first
and leaves the registry unchanged, so at most one axis instance exists per
(canvas, normalized specifier) pair. -/
theorem prepare_skyproj_idempotent :
    normalizeSubplot (.int 111) = normalizeSubplot (.tup [1, 1, 1]) ∧
    ∀ (s : RegState) (c : ℕ) (sp1 sp2 : SubplotIn) (ty : PyClass) (a : Axis)
      (s2 : RegState),
      normalizeSubplot sp1 = normalizeSubplot sp2 →
      prepareSkyproj s c sp1 ty = (.ok a, s2) →
      prepareSkyproj s2 c sp2 ty = (.ok a, s2) := by
  refine ⟨rfl, ?_⟩
  intro s c sp1 sp2 ty a s2 hnorm h1
  cases hkey : normalizeSubplot sp1 with
  | error e =>
    unfold prepareSkyproj at h1
    rw [hkey] at h1
    simp at h1
  | ok key =>
    have hkey2 : normalizeSubplot sp2 = .ok key := by rw [← hnorm]; exact hkey
    cases hsub : lookupA ((lookupA s.instances c).getD []) key with
    | some a0 =>
      by_cases hinst : isInst a0.cls ty = true
      · rw [prepareSkyproj_cached s c sp1 ty key a0 hkey hsub hinst] at h1
        rw [Prod.mk.injEq] at h1
        obtain ⟨ha, hs⟩ := h1
        rw [Except.ok.injEq] at ha
        subst ha
        subst hs
        exact prepareSkyproj_cached s c sp2 ty key a0 hkey2 hsub hinst
      · have hinstF : isInst a0.cls ty = false := by
          cases hIF : isInst a0.cls ty
          · rfl
          · exact absurd hIF hinst
        unfold prepareSkyproj at h1
        rw [hkey] at h1
        simp [hsub, hinstF] at h1
    | none =>
      rw [prepareSkyproj_new s c sp1 ty key hkey hsub] at h1
      rw [Prod.mk.injEq] at h1
      obtain ⟨ha, hs⟩ := h1
      rw [Except.ok.injEq] at ha
      subst ha
      subst hs
      apply prepareSkyproj_cached _ c sp2 ty key _ hkey2
      · rw [lookupA_insertA]
        simp [lookupA_insertA]
      · exact isInst_self ty

/-- Witness for C2: starting from the empty registry, acquiring with the
integer specifier 111 and then with the tuple specifier (1, 1, 1) returns
the axis created by the first call and leaves the registry unchanged. -/
theorem prepare_skyproj_idempotent_w :
    prepareSkyproj ⟨[(0, [([1, 1, 1], ⟨0, ⟨0, []⟩⟩)])], 1⟩ 0 (.tup [1, 1, 1]) ⟨0, []⟩ =
      (.ok ⟨0, ⟨0, []⟩⟩, ⟨[(0, [([1, 1, 1], ⟨0, ⟨0, []⟩⟩)])], 1⟩) :=
  prepare_skyproj_idempotent.2 ⟨[], 0⟩ 0 (.int 111) (.tup [1, 1, 1]) ⟨0, []⟩
    ⟨0, ⟨0, []⟩⟩ ⟨[(0, [([1, 1, 1], ⟨0, ⟨0, []⟩⟩)])], 1⟩ rfl rfl

/-- C4 (amended): when an axis is already cached for the canvas and
normalized specifier and the cached instance is not an instance of the
requested projection class (neither that class nor a subclass of it),
acquisition fails with a fatal assertion error, no new axis is created, and
the registry is unchanged. -/
theorem prepare_skyproj_mismatch_assert :
    ∀ (s : RegState) (c : ℕ) (sp : SubplotIn) (ty : PyClass) (key : SubKey)
      (a : Axis),
      normalizeSubplot sp = .ok key →
      lookupA ((lookupA s.instances c).getD []) key = some a →
      isInst a.cls ty = false →
      prepareSkyproj s c sp ty = (.error .assertionError, s) := by
  intro s c sp ty key a hsp hsub hinst
  have hsome := cached_isSome hsub
  unfold prepareSkyproj
  rw [hsp]
  simp [hsub, hinst, hsome]

/-- Witness for the amended C4: the registry caches an axis of the subclass
while the caller requests an unrelated class with identity 2. -/
theorem prepare_skyproj_mismatch_assert_w :
    prepareSkyproj sB 0 (.tup [1, 1, 1]) ⟨2, []⟩ = (.error .assertionError, sB) :=
  prepare_skyproj_mismatch_assert sB 0 (.tup [1, 1, 1]) ⟨2, []⟩ [1, 1, 1] axB
    rfl rfl rfl

/-- C4 counterexample: the assertion is `isinstance`, not type equality.

With an axis of the concrete subclass cached, requesting the distinct base
class succeeds and returns the cached instance instead of failing. -/
theorem prepare_skyproj_mismatch_cex :
    ¬ (∀ (s : RegState) (c : ℕ) (sp : SubplotIn) (ty : PyClass) (key : SubKey)
        (a : Axis),
        normalizeSubplot sp = .ok key →
        lookupA ((lookupA s.instances c).getD []) key = some a →
        a.cls ≠ ty →
        prepareSkyproj s c sp ty = (.error .assertionError, s)) := by
  intro h
  have h2 := h sB 0 (.tup [1, 1, 1]) baseCls [1, 1, 1] axB rfl rfl (by decide)
  have h3 : prepareSkyproj sB 0 (.tup [1, 1, 1]) baseCls = (.ok axB, sB) := rfl
  rw [h2] at h3
  simp at h3

/-- C10: acquiring an axis with a non-negative integer subplot specifier
whose decimal representation does not have exactly three digits raises a
TypeError (the specifier fails the 3-character test and the non-iterable
int reaches the tuple constructor), leaving the registry unchanged. -/
theorem prepare_skyproj_int_type_error :
    ∀ (s : RegState) (c : ℕ) (ty : PyClass) (n : ℤ),
      0 ≤ n → strLen n ≠ 3 →
      prepareSkyproj s c (.int n) ty = (.error .typeError, s) := by
  intro s c ty n _ h3
  have hn : normalizeSubplot (.int n) = .error .typeError := by
    simp only [normalizeSubplot, if_neg h3]
  unfold prepareSkyproj
  rw [hn]

/-- Witness for C10 at the two-digit specifier 11. -/
theorem prepare_skyproj_int_type_error_w :
    prepareSkyproj ⟨[], 0⟩ 5 (.int 11) ⟨0, []⟩ = (.error .typeError, ⟨[], 0⟩) :=
  prepare_skyproj_int_type_error ⟨[], 0⟩ 5 ⟨0, []⟩ 11 (by decide) (by decide)

/-- C5 (amended): with the color-bar orientation set to a string value,
drawing the color bar raises the fatal unsupported-option error
NotImplementedError exactly when the value, compared case-insensitively
(the code lowercases it first), is neither vertical nor horizontal; for the
two recognized orientations no such error is raised. -/
theorem draw_colorbar_orientation_errors :
    ∀ (pd : PlotDict) (s : String),
      pdGet pd "cbar_orientation" = .str s →
      (drawColorbarKwargs pd = .error .notImplementedError ↔
        (pyLower s ≠ "vertical" ∧ pyLower s ≠ "horizontal")) := by
  intro pd s h
  have hhas : pdHas pd "cbar_orientation" = true := by
    unfold pdGet at h
    unfold pdHas
    cases hl : lookupA pd "cbar_orientation" with
    | none => rw [hl] at h; simp at h
    | some v => rfl
  unfold drawColorbarKwargs
  simp only [hhas, h]
  by_cases hv : pyLower s = "vertical"
  · simp [hv]
  · by_cases hh : pyLower s = "horizontal"
    · simp [hv, hh]
    · simp [hv, hh]

/-- Witness for the amended C5 at the unsupported orientation diagonal. -/
theorem draw_colorbar_orientation_errors_w :
    drawColorbarKwargs [("cbar_orientation", PyValue.str "diagonal")] =
        .error .notImplementedError ↔
      (pyLower "diagonal" ≠ "vertical" ∧ pyLower "diagonal" ≠ "horizontal") :=
  draw_colorbar_orientation_errors [("cbar_orientation", PyValue.str "diagonal")]
    "diagonal" rfl

/-- C5 counterexample: a literal (case-sensitive) reading is false. The
value VERTICAL is neither the string vertical nor the string horizontal,
yet the code lowercases it and draws the color bar without error. -/
theorem draw_colorbar_orientation_cex :
    ¬ (∀ (pd : PlotDict) (s : String),
        pdGet pd "cbar_orientation" = .str s →
        s ≠ "vertical" → s ≠ "horizontal" →
        drawColorbarKwargs pd = .error .notImplementedError) := by
  intro h
  have h2 := h pdVert "VERTICAL" rfl (by decide) (by decide)
  have h3 : isOkE (drawColorbarKwargs pdVert) = true := rfl
  rw [h2] at h3
  simp [isOkE] at h3

/-- C6: with sun (or moon or horizon) among the configured decorations and
no observatory context, the decoration pipeline emits a warning for that
decoration, draws nothing for it, raises no exception, and still draws the
ecliptic and galactic-plane decorations when they are also configured. -/
theorem decorate_missing_observatory :
    ∀ (pd : PlotDict) (dec : List String),
      pdGet pd "decorations" = .strList dec →
      pdGet pd "model_observatory" = .none →
      ∃ evs, decorate pd = .ok evs ∧
        ("sun" ∈ dec → Event.warnNoObservatory "sun" ∈ evs ∧
          Event.scatterBody "sun" ∉ evs) ∧
        ("moon" ∈ dec → Event.warnNoObservatory "moon" ∈ evs ∧
          Event.scatterBody "moon" ∉ evs) ∧
        ("horizon" ∈ dec → Event.warnNoObservatory "zd" ∈ evs ∧
          Event.circle "zd" ∉ evs) ∧
        ("ecliptic" ∈ dec → Event.circle "ecliptic" ∈ evs) ∧
        ("galactic_plane" ∈ dec → Event.circle "galactic_plane" ∈ evs) := by
  intro pd dec h1 h2
  have hd : decorate pd = .ok
      ((if "ecliptic" ∈ dec then drawEcliptic else []) ++
        (if "galactic_plane" ∈ dec then drawGalacticPlane else []) ++
        (if "sun" ∈ dec then drawBody pd "sun" else []) ++
        (if "moon" ∈ dec then drawBody pd "moon" else []) ++
        (if "horizon" ∈ dec then drawZd pd else [])) := by
    unfold decorate
    rw [h1]
  refine ⟨_, hd, ?_, ?_, ?_, ?_, ?_⟩
  · intro hs
    constructor
    · simp [drawBody, h2, hs, List.mem_append, drawEcliptic, drawGalacticPlane]
    · simp only [drawBody, drawZd, h2, List.mem_append, List.mem_cons]
      split_ifs <;>
        simp_all [drawEcliptic, drawGalacticPlane, List.mem_append]
  · intro hs
    constructor
    · simp [drawBody, h2, hs, List.mem_append, drawEcliptic, drawGalacticPlane]
    · simp only [drawBody, drawZd, h2, List.mem_append, List.mem_cons]
      split_ifs <;>
        simp_all [drawEcliptic, drawGalacticPlane, List.mem_append]
  · intro hs
    constructor
    · simp [drawZd, h2, hs, List.mem_append, drawEcliptic, drawGalacticPlane]
    · simp only [drawBody, drawZd, h2, List.mem_append, List.mem_cons]
      split_ifs <;>
        simp_all [drawEcliptic, drawGalacticPlane, List.mem_append]
  · intro hs
    simp [drawEcliptic, hs, List.mem_append]
  · intro hs
    simp [drawGalacticPlane, hs, List.mem_append]

/-- Witness for C6 at a configuration requesting the ecliptic and the sun
without an observatory context. -/
theorem decorate_missing_observatory_w :
    ∃ evs, decorate [("decorations", PyValue.strList ["ecliptic", "sun"])] =
        .ok evs ∧
      ("sun" ∈ ["ecliptic", "sun"] → Event.warnNoObservatory "sun" ∈ evs ∧
        Event.scatterBody "sun" ∉ evs) ∧
      ("moon" ∈ ["ecliptic", "sun"] → Event.warnNoObservatory "moon" ∈ evs ∧
        Event.scatterBody "moon" ∉ evs) ∧
      ("horizon" ∈ ["ecliptic", "sun"] → Event.warnNoObservatory "zd" ∈ evs ∧
        Event.circle "zd" ∉ evs) ∧
      ("ecliptic" ∈ ["ecliptic", "sun"] → Event.circle "ecliptic" ∈ evs) ∧
      ("galactic_plane" ∈ ["ecliptic", "sun"] →
        Event.circle "galactic_plane" ∈ evs) :=
  decorate_missing_observatory [("decorations", PyValue.strList ["ecliptic", "sun"])]
    ["ecliptic", "sun"] rfl rfl

/-- Update with a layer that never sets the key leaves its lookup result
unchanged. -/
theorem lookupA_dictUpdate (o : PlotDict) (k : String) :
    ∀ m : PlotDict, lookupA o k = none → lookupA (dictUpdate m o) k = lookupA m k := by
  induction o with
  | nil => intro m _; rfl
  | cons kv o ih =>
    intro m h
    obtain ⟨k1, v1⟩ := kv
    by_cases hk : k = k1
    · simp [lookupA, hk] at h
    · simp only [lookupA, if_neg hk] at h
      have hstep : dictUpdate m ((k1, v1) :: o) = dictUpdate (insertA m k1 v1) o := rfl
      rw [hstep, ih _ h, lookupA_insertA, if_neg hk]

/-- Folding a chain of layers that never set the key leaves its lookup
result unchanged. -/
theorem lookupA_resolveChain (layers : List PlotDict) (k : String) :
    ∀ m : PlotDict, (∀ l ∈ layers, lookupA l k = none) →
      lookupA (layers.foldl dictUpdate m) k = lookupA m k := by
  induction layers with
  | nil => intro m _; rfl
  | cons l ls ih =>
    intro m h
    have h1 : lookupA l k = none := h l (List.mem_cons_self l ls)
    have h2 : ∀ x ∈ ls, lookupA x k = none :=
      fun x hx => h x (List.mem_cons_of_mem l hx)
    rw [List.foldl_cons, ih _ h2, lookupA_dictUpdate l k m h1]

/-- C7: for any chain of default layers and any user override mapping, a key
never set in any layer resolves, on lookup in the built plot dict, to the
null sentinel None instead of raising a missing-key error. -/
theorem plot_dict_unset_none :
    ∀ (defaultLayers : List PlotDict) (user : PlotDict) (k : String),
      (∀ l ∈ defaultLayers, lookupA l k = none) →
      lookupA user k = none →
      pdGet (buildPlotDict (resolveChain defaultLayers) user) k = .none := by
  intro dl user k hdl huser
  have hchain : lookupA (resolveChain dl) k = none :=
    lookupA_resolveChain dl k [] hdl
  have hb : lookupA (buildPlotDict (resolveChain dl) user) k = none := by
    unfold buildPlotDict
    rw [lookupA_dictUpdate user k _ huser, lookupA_dictUpdate (resolveChain dl) k [] hchain]
    rfl
  unfold pdGet
  rw [hb]
  rfl

/-- Witness for C7: a default layer setting only the subplot and a user
override setting only the figure size leave the observatory key unset. -/
theorem plot_dict_unset_none_w :
    pdGet (buildPlotDict (resolveChain [[("subplot", PyValue.num 111)]])
      [("figsize", PyValue.num 5)]) "model_observatory" = .none :=
  plot_dict_unset_none [[("subplot", PyValue.num 111)]]
    [("figsize", PyValue.num 5)] "model_observatory"
    (by
      intro l hl
      rw [List.mem_singleton] at hl
      subst hl
      rfl)
    rfl

/-- Constructing HpxmapPlotter instances appends to the single shared list
object, one occurrence per construction. -/
theorem constructNHpx_heapGet :
    ∀ (k : ℕ) (l : List String),
      heapGet (constructNHpx k ⟨[l]⟩) 0 = l ++ List.replicate k "colorbar" := by
  intro k
  induction k with
  | zero => intro l; simp [constructNHpx, heapGet]
  | succ k ih =>
    intro l
    have hstep : constructNHpx (k + 1) ⟨[l]⟩ = constructNHpx k ⟨[l ++ ["colorbar"]]⟩ := rfl
    rw [hstep, ih (l ++ ["colorbar"])]
    simp [List.replicate_succ]

/-- C9: every plotter constructor stores the shared class-level
default-decorations list object in its instance defaults, and each
HpxmapPlotter construction appends one colorbar entry to that shared
object: after constructing k HpxmapPlotters the shared list holds exactly k
occurrences of colorbar, and any plotter constructed afterwards (including
the perimeter variant) sees colorbar in its default decorations. -/
theorem hpxmap_shared_decorations :
    ∀ k : ℕ,
      (heapGet (constructNHpx k initHeap) classDecorRef).count "colorbar" = k ∧
      (∀ h : Heap,
        (constructSkyprojPlotter h).1.decorationsRef = classDecorRef ∧
        (constructHpxmapPlotter h).1.decorationsRef = classDecorRef ∧
        (constructVisitPerimeterPlotter h).1.decorationsRef = classDecorRef) ∧
      (1 ≤ k →
        "colorbar" ∈
          heapGet (constructVisitPerimeterPlotter (constructNHpx k initHeap)).2
            (constructVisitPerimeterPlotter (constructNHpx k initHeap)).1.decorationsRef) := by
  intro k
  refine ⟨?_, fun h => ⟨rfl, rfl, rfl⟩, ?_⟩
  · show (heapGet (constructNHpx k ⟨[["ecliptic", "galactic_plane"]]⟩) 0).count
        "colorbar" = k
    rw [constructNHpx_heapGet k ["ecliptic", "galactic_plane"]]
    have hbase : (["ecliptic", "galactic_plane"] : List String).count "colorbar" = 0 := rfl
    rw [List.count_append, hbase, List.count_replicate_self]
    omega
  · intro hk
    show "colorbar" ∈ heapGet (constructNHpx k ⟨[["ecliptic", "galactic_plane"]]⟩) 0
    rw [constructNHpx_heapGet k ["ecliptic", "galactic_plane"]]
    exact List.mem_append_right _ (List.mem_replicate.mpr ⟨by omega, rfl⟩)

/-- Witness for C9 at two constructions: two colorbar occurrences in the
shared list, and a perimeter plotter constructed afterwards sees it. -/
theorem hpxmap_shared_decorations_w :
    (heapGet (constructNHpx 2 initHeap) classDecorRef).count "colorbar" = 2 ∧
    "colorbar" ∈
      heapGet (constructVisitPerimeterPlotter (constructNHpx 2 initHeap)).2
        (constructVisitPerimeterPlotter (constructNHpx 2 initHeap)).1.decorationsRef :=
  ⟨(hpxmap_shared_decorations 2).1, (hpxmap_shared_decorations 2).2.2 (by decide)⟩
